import Mathlib

/-!
Shallow embedding of `stepper.c` (LasaurGrbl stepper motor pulse generation)
together with a verification of its specified properties.

Modelling conventions:
* hardware register writes (STEPPING_PORT, TCCR1B, OCR1A, TCNT2, ...) are
  abstracted away; logical step/direction information is kept as booleans,
  and a ghost counter `pulse_count` records how often the dispatch loop
  reached the pulse-emission point;
* 32-bit unsigned arithmetic is modelled on `Nat` with explicit reduction
  modulo `2 ^ 32` where the C code can wrap (`adjusted_rate` updates,
  the acceleration tick accumulator);
* the Bresenham counters (`int32_t` in C) are modelled as `Int`; theorems
  carry the hypothesis `step_event_count < 2 ^ 31` under which all counter
  values stay inside the `int32_t` range, so the model is exact;
* fallible code returns `Option` (`adjust_speed` dereferences the current
  block, so its model takes an `Option Block` and yields `none` exactly
  when the C code would dereference a null pointer).
-/

set_option maxRecDepth 8000
set_option linter.unusedVariables false

namespace Stepper

/-- Modulus of 32-bit unsigned arithmetic. -/
def UINT32 : Nat := 4294967296

/-- Unsigned 32-bit addition. -/
def add32 (a b : Nat) : Nat := (a + b) % UINT32

/-- Unsigned 32-bit subtraction (two's complement wraparound). -/
def sub32 (a b : Nat) : Nat := (a + (UINT32 - b % UINT32)) % UINT32

/-- CPU frequency in Hz; stepper.c line 56 documents F_CPU/1000000 = 16. -/
def F_CPU : Nat := 16000000

/-- Modelled from the spec: ACCELERATION_TICKS_PER_SECOND is a configuration
input ("tick-adjustments-per-second for the profile controller") living in
config.h, which is not among the sources. No claim depends on its value. -/
def ACCELERATION_TICKS_PER_SECOND : Nat := 100

/-- Cycles per microsecond, stepper.c line 56. -/
def CYCLES_PER_MICROSECOND : Nat := F_CPU / 1000000

/-- Cycles per acceleration tick, stepper.c line 57. -/
def CYCLES_PER_ACCELERATION_TICK : Nat := F_CPU / ACCELERATION_TICKS_PER_SECOND

/-- Modelled from the spec: "minimum allowed step rate", a configuration
input in config.h (not among the sources). No claim depends on its value. -/
def MINIMUM_STEPS_PER_MINUTE : Nat := 1200

/-- Modelled from the spec: stop cause code for "no stop" (config.h is not
among the sources; only distinctness of the codes matters). -/
def STATUS_OK : Nat := 0

/-- Modelled from the spec: stop cause code for a limit switch hit. -/
def STATUS_STOP_LIMIT_HIT : Nat := 1

/-- Modelled from the spec: stop cause code for chiller (interlock) loss. -/
def STATUS_STOP_CHILLER_OFF : Nat := 2

/-- Modelled from the spec: stop cause code for main power loss. -/
def STATUS_STOP_POWER_OFF : Nat := 3

/-- Result of configuring timer 1: the reload ceiling (OCR1A), the prescaler
select value, and the actual cycles per interrupt that were achieved. -/
structure TimerSetting where
  ceiling : Nat
  prescaler : Nat
  actual_cycles : Nat
deriving Repr, DecidableEq

/-- Embeds `config_step_timer` (stepper.c lines 401-436).  Each tier keeps
the C expression: `ceiling = cycles >> k`, `actual_cycles = ceiling * 2^k`,
where the L suffix on the multiplier makes the product 32-bit and the
results (at most 0xffff * 1024) never wrap.  The final clamp branch is
different: its `actual_cycles = 0xffff * 1024` carries no L suffix, so on
the AVR target (16-bit int) it is an unsigned 16-bit multiply that wraps
modulo 2^16 to 64512 before the assignment to the uint32_t variable, even
though the timer itself is configured for ceiling 0xffff at divisor 1024,
a true period of 67107840 cycles. -/
def config_step_timer (cycles : Nat) : TimerSetting :=
  if cycles ≤ 0xffff then
    { ceiling := cycles, prescaler := 0, actual_cycles := cycles }
  else if cycles ≤ 0x7ffff then
    { ceiling := cycles >>> 3, prescaler := 1, actual_cycles := (cycles >>> 3) * 8 }
  else if cycles ≤ 0x3fffff then
    { ceiling := cycles >>> 6, prescaler := 2, actual_cycles := (cycles >>> 6) * 64 }
  else if cycles ≤ 0xffffff then
    { ceiling := cycles >>> 8, prescaler := 3, actual_cycles := (cycles >>> 8) * 256 }
  else if cycles ≤ 0x3ffffff then
    { ceiling := cycles >>> 10, prescaler := 4, actual_cycles := (cycles >>> 10) * 1024 }
  else
    { ceiling := 0xffff, prescaler := 4, actual_cycles := 0xffff * 1024 % 65536 }

/-- Divisor selected by a prescaler value (stepper.c comments on lines
407-423: prescaler select 0,1,2,3,4 means divisor 1,8,64,256,1024). -/
def prescalerDivisor (p : Nat) : Nat :=
  if p = 0 then 1
  else if p = 1 then 8
  else if p = 2 then 64
  else if p = 3 then 256
  else 1024

/-- Block types: the variants dispatched by the stepper ISR (stepper.c lines
270-377); the defining header (planner.h) is not among the sources. -/
inductive BlockType where
  | line
  | airgasDisable
  | airEnable
  | gasEnable
deriving Repr, DecidableEq

/-- Motion block (block_t, owned by the planner; planner.h is not among the
sources, the fields are the ones stepper.c reads).  Direction bits are kept
as one boolean per axis: a set bit makes the tracer decrement the absolute
position on that axis (stepper.c lines 279-283). -/
structure Block where
  btype : BlockType
  steps_x : Nat
  steps_y : Nat
  steps_z : Nat
  step_event_count : Nat
  dir_x : Bool
  dir_y : Bool
  dir_z : Bool
  initial_rate : Nat
  nominal_rate : Nat
  final_rate : Nat
  rate_delta : Nat
  accelerate_until : Nat
  decelerate_after : Nat
  nominal_laser_intensity : Nat
deriving Repr, DecidableEq

/-- Embeds `adjust_speed` (stepper.c lines 439-445) as a function of the
`current_block` reference.  The C body reads
`current_block->nominal_laser_intensity` unconditionally; dereferencing a
null `current_block` is modelled by returning `none`.  On success the result
is the pair (new cycles_per_step_event, laser intensity written out). -/
def adjust_speed (current_block : Option Block) (steps_per_minute : Nat) :
    Option (Nat × Nat) :=
  let spm := if steps_per_minute < MINIMUM_STEPS_PER_MINUTE then MINIMUM_STEPS_PER_MINUTE
             else steps_per_minute
  match current_block with
  | none => none
  | some b =>
    some ((config_step_timer ((CYCLES_PER_MICROSECOND * 1000000 * 60) / spm)).actual_cycles,
          b.nominal_laser_intensity)

/-- Value of `current_block` at the `adjust_speed` call inside `stepper_init`
(stepper.c line 109): the static pointer is still null there, since statics
are zero-initialized and no block has ever been fetched (line 112 only
re-asserts the null value afterwards). -/
def stepper_init_current_block : Option Block := none

/-- Result of the `adjust_speed(MINIMUM_STEPS_PER_MINUTE)` call made by
`stepper_init` (stepper.c line 109). -/
def stepper_init_adjust_speed_result : Option (Nat × Nat) :=
  adjust_speed stepper_init_current_block MINIMUM_STEPS_PER_MINUTE

/-- State of the `homing_cycle` loop (stepper.c lines 451-516).  The booleans
`x_bit`, `y_bit`, `z_bit` track whether the corresponding step bit is present
in `out_bits`; `x_pulses`, `y_pulses`, `z_pulses` are ghost counters of
emitted step pulses (lines 506-508); `done` records that the `for(;;)` loop
has exited via the `break` on line 511. -/
structure HomingState where
  x_axis : Bool
  y_axis : Bool
  z_axis : Bool
  x_overshoot_count : Nat
  y_overshoot_count : Nat
  x_bit : Bool
  y_bit : Bool
  z_bit : Bool
  x_pulses : Nat
  y_pulses : Nat
  z_pulses : Nat
  done : Bool
deriving Repr, DecidableEq

/-- Initial homing loop state (stepper.c lines 454-461): the requested axes
get their step bit set in `out_bits`, both overshoot counters start at 6. -/
def homing_init (x_axis y_axis z_axis : Bool) : HomingState :=
  { x_axis := x_axis, y_axis := y_axis, z_axis := z_axis
    x_overshoot_count := 6, y_overshoot_count := 6
    x_bit := x_axis, y_bit := y_axis, z_bit := z_axis
    x_pulses := 0, y_pulses := 0, z_pulses := 0
    done := false }

/-- The X-axis part of one `for(;;)` homing loop iteration (stepper.c lines
480-487).  `x_hit` gives the value of the per-axis switch condition
`!(limit_bits & (1<<X1_LIMIT_BIT))` (after the reverse-direction inversion
of `limit_bits` on lines 476-479), read from the hardware this iteration.
Z axis handling is commented out in the source (lines 496-503), so `z_axis`
is never cleared by any update. -/
def homing_axis_update_x (x_hit : Bool) (s : HomingState) : HomingState :=
  if s.x_axis && x_hit then
    if s.x_overshoot_count = 0 then { s with x_axis := false, x_bit := !s.x_bit }
    else { s with x_overshoot_count := s.x_overshoot_count - 1 }
  else s

/-- The Y-axis part of the loop body (stepper.c lines 488-495). -/
def homing_axis_update_y (y_hit : Bool) (s : HomingState) : HomingState :=
  if s.y_axis && y_hit then
    if s.y_overshoot_count = 0 then { s with y_axis := false, y_bit := !s.y_bit }
    else { s with y_overshoot_count := s.y_overshoot_count - 1 }
  else s

/-- The pulse-or-break tail of the loop body (stepper.c lines 504-512):
while some axis is active, every axis whose step bit is still in `out_bits`
gets pulsed; otherwise the loop exits. -/
def homing_pulse (s : HomingState) : HomingState :=
  if s.x_axis || s.y_axis || s.z_axis then
    { s with
      x_pulses := s.x_pulses + (if s.x_bit then 1 else 0)
      y_pulses := s.y_pulses + (if s.y_bit then 1 else 0)
      z_pulses := s.z_pulses + (if s.z_bit then 1 else 0) }
  else
    { s with done := true }

/-- The whole loop body, axis updates then pulse-or-break; a finished loop
(`done`) stays frozen. -/
def homing_loop_step (x_hit y_hit : Bool) (s : HomingState) : HomingState :=
  if s.done then s
  else homing_pulse (homing_axis_update_y y_hit (homing_axis_update_x x_hit s))

/-- Runs `k` iterations of the homing loop; iteration `i` (numbered from 0)
reads the switch conditions `x_in i` and `y_in i`. -/
def homing_run (x_in y_in : Nat → Bool) (s : HomingState) : Nat → HomingState
  | 0 => s
  | k + 1 => homing_loop_step (x_in k) (y_in k) (homing_run x_in y_in s k)

/-- The homing scenario of claim C7: the X switch condition holds from the
start and stays, X and optionally Y are being homed, Z is not. -/
def homing_x_held_run (y_axis : Bool) (y_in : Nat → Bool) (k : Nat) : HomingState :=
  homing_run (fun _ => true) y_in (homing_init true y_axis false) k

/-- Arguments of a `homing_cycle` call (stepper.c line 451). -/
structure HomingCall where
  x : Bool
  y : Bool
  z : Bool
  reverse_direction : Bool
  microseconds_per_pulse : Nat
deriving Repr, DecidableEq

/-- Embeds `approach_limit_switch` (stepper.c lines 518-520): phase 1 of the
homing cycle, forward direction, 1000 microseconds per pulse. -/
def approach_limit_switch (x y z : Bool) : HomingCall :=
  { x := x, y := y, z := z, reverse_direction := false, microseconds_per_pulse := 1000 }

/-- Embeds `leave_limit_switch` (stepper.c lines 522-524): phase 2 of the
homing cycle, reversed direction, 10000 microseconds per pulse. -/
def leave_limit_switch (x y z : Bool) : HomingCall :=
  { x := x, y := y, z := z, reverse_direction := true, microseconds_per_pulse := 10000 }

/-- Modelled from the spec: `clear_vector` is a macro from a header that is
not among the sources; it zeroes the whole 3-vector it is applied to.  The
spec's data model requires the runtime state to start with zeroed position,
and `stepper_init` establishes that with the very same
`clear_vector(stepper_position)` call (stepper.c line 110), so the macro
clears every component, independent of which axes a homing call touched. -/
def clear_vector (p : Int × Int × Int) : Int × Int × Int := (0, 0, 0)

/-- Embeds `homing_cycle` (stepper.c lines 451-516) at the level of its
effect on `stepper_position`: run the loop on the given switch input streams
for `fuel` iterations; if the loop has exited by then, the final
`clear_vector(stepper_position)` (line 514) is applied to the entry position
and the result returned; otherwise `none` (loop still running, no effect
observable yet).  The loop body itself never writes `stepper_position`. -/
def homing_cycle_positions (x_axis y_axis z_axis : Bool) (x_in y_in : Nat → Bool)
    (fuel : Nat) (pos : Int × Int × Int) : Option (Int × Int × Int) :=
  if (homing_run x_in y_in (homing_init x_axis y_axis z_axis) fuel).done then
    some (clear_vector pos)
  else none

/-- Embeds `stepper_homing_cycle` (stepper.c lines 526-531) at the level of
its effect on `stepper_position`: it homes only the X and Y axes, first
approaching then leaving the limit switches. -/
def stepper_homing_cycle_positions (ax_in ay_in lx_in ly_in : Nat → Bool)
    (fuel1 fuel2 : Nat) (pos : Int × Int × Int) : Option (Int × Int × Int) :=
  match homing_cycle_positions (approach_limit_switch true true false).x
      (approach_limit_switch true true false).y (approach_limit_switch true true false).z
      ax_in ay_in fuel1 pos with
  | none => none
  | some p1 =>
    homing_cycle_positions (leave_limit_switch true true false).x
      (leave_limit_switch true true false).y (leave_limit_switch true true false).z
      lx_in ly_in fuel2 p1

/-- Runtime state of the stepper core (the static variables of stepper.c,
lines 60-78, plus a model of the planner's block queue and of the actuator
outputs driven through sense_control).  `pulse_count` is a ghost counter of
how often the dispatch loop reached the pulse-emission point (lines
237-241); `out_x`, `out_y`, `out_z` are the logical step bits of `out_bits`
(the direction half and the polarity mask `INVERT_MASK` are a fixed
bijection on the emitted byte and are abstracted away). -/
structure StepperState where
  position_x : Int
  position_y : Int
  position_z : Int
  current_block : Option Block
  out_x : Bool
  out_y : Bool
  out_z : Bool
  counter_x : Int
  counter_y : Int
  counter_z : Int
  step_events_completed : Nat
  cycles_per_step_event : Nat
  acceleration_tick_counter : Nat
  adjusted_rate : Nat
  processing_flag : Bool
  stop_requested : Bool
  stop_status : Nat
  laser_intensity : Nat
  air_on : Bool
  gas_on : Bool
  queue : List Block
  pulse_count : Nat
deriving Repr, DecidableEq

/-- Sensor readings at one dispatch invocation (sense_control.h inputs). -/
structure SenseInput where
  limits : Bool
  chiller_off : Bool
  power_off : Bool
  door_open : Bool
deriving Repr, DecidableEq

/-- Modelled from the spec: `SENSE_ANY` is defined in sense_control.h, which
is not among the sources; per the spec it is the composite "any fault/pause
condition active" signal, the disjunction of the four discriminants. -/
def sense_any (i : SenseInput) : Bool :=
  i.limits || i.chiller_off || i.power_off || i.door_open

/-- Embeds `stepper_go_idle` (stepper.c lines 144-150): stop processing,
drop the current block reference, disable the stepper interrupt (hardware,
abstracted) and zero the laser intensity. -/
def stepper_go_idle (s : StepperState) : StepperState :=
  { s with processing_flag := false, current_block := none, laser_intensity := 0 }

/-- Embeds `stepper_request_stop` (stepper.c lines 153-156). -/
def stepper_request_stop (status : Nat) (s : StepperState) : StepperState :=
  { s with stop_status := status, stop_requested := true }

/-- Embeds `stepper_resume` (stepper.c lines 166-168): it only clears the
stop flag. -/
def stepper_resume (s : StepperState) : StepperState :=
  { s with stop_requested := false }

/-- Embeds the in-ISR effect of `adjust_speed` (stepper.c lines 439-445)
when the current block `b` exists: clamp the rate from below, reprogram
timer 1 via `config_step_timer`, and re-assert the block's laser
intensity. -/
def adjust_speed_state (b : Block) (steps_per_minute : Nat) (s : StepperState) : StepperState :=
  let spm := if steps_per_minute < MINIMUM_STEPS_PER_MINUTE then MINIMUM_STEPS_PER_MINUTE
             else steps_per_minute
  { s with
    cycles_per_step_event :=
      (config_step_timer ((CYCLES_PER_MICROSECOND * 1000000 * 60) / spm)).actual_cycles
    laser_intensity := b.nominal_laser_intensity }

/-- Embeds the test of `acceleration_tick` (stepper.c lines 388-396): the
accumulator (uint32) grows by `cycles_per_step_event` and the tick fires
when it exceeds `CYCLES_PER_ACCELERATION_TICK`. -/
def acceleration_tick_fires (s : StepperState) : Bool :=
  decide (CYCLES_PER_ACCELERATION_TICK <
    (s.acceleration_tick_counter + s.cycles_per_step_event) % UINT32)

/-- Embeds the accumulator update of `acceleration_tick` (stepper.c lines
388-396). -/
def acceleration_tick_update (s : StepperState) : StepperState :=
  let c := (s.acceleration_tick_counter + s.cycles_per_step_event) % UINT32
  if CYCLES_PER_ACCELERATION_TICK < c then
    { s with acceleration_tick_counter := c - CYCLES_PER_ACCELERATION_TICK }
  else
    { s with acceleration_tick_counter := c }

/-- Embeds the speed-adjustment section of the line case of the stepper ISR
(stepper.c lines 314-355), entered after `step_events_completed` was already
incremented.  All rate arithmetic is 32-bit unsigned. -/
def speed_adjustment (b : Block) (s : StepperState) : StepperState :=
  if s.step_events_completed < b.step_event_count then
    if s.step_events_completed < b.accelerate_until then
      -- accelerating (lines 318-325)
      if acceleration_tick_fires s then
        let s2 := acceleration_tick_update s
        let r := add32 s2.adjusted_rate b.rate_delta
        let r2 := if b.nominal_rate < r then b.nominal_rate else r
        adjust_speed_state b r2 { s2 with adjusted_rate := r2 }
      else acceleration_tick_update s
    else if s.step_events_completed = b.decelerate_after then
      -- deceleration start (lines 328-331): reset the accumulator, midpoint rule
      { s with acceleration_tick_counter := CYCLES_PER_ACCELERATION_TICK / 2 }
    else if b.decelerate_after ≤ s.step_events_completed then
      -- decelerating (lines 334-341)
      if acceleration_tick_fires s then
        let s2 := acceleration_tick_update s
        let r := sub32 s2.adjusted_rate b.rate_delta
        let r2 := if r < b.final_rate then b.final_rate else r
        adjust_speed_state b r2 { s2 with adjusted_rate := r2 }
      else acceleration_tick_update s
    else
      -- cruising (lines 344-349)
      if s.adjusted_rate ≠ b.nominal_rate then
        adjust_speed_state b b.nominal_rate { s with adjusted_rate := b.nominal_rate }
      else s
  else
    -- block finished (lines 351-354): release and discard it from the queue
    { s with current_block := none, queue := s.queue.tail }

/-- One Bresenham counter update (stepper.c lines 274-277 for X, and the
symmetric Y and Z code): add the axis step count, and when the counter goes
positive subtract `step_event_count`. -/
def axis_trace_counter (steps n : Nat) (c : Int) : Int :=
  if 0 < c + (steps : Int) then c + (steps : Int) - (n : Int) else c + (steps : Int)

/-- Whether the axis steps this event (the `counter > 0` test guarding the
step bit, stepper.c line 275). -/
def axis_trace_stepped (steps : Nat) (c : Int) : Bool :=
  decide (0 < c + (steps : Int))

/-- Embeds the Bresenham tracer part of one line step event (stepper.c lines
272-309): update the three counters, record which axes step, update the
absolute position per the block's direction bits, and increment
`step_events_completed`. -/
def line_trace (b : Block) (s : StepperState) : StepperState :=
  let sx := axis_trace_stepped b.steps_x s.counter_x
  let sy := axis_trace_stepped b.steps_y s.counter_y
  let sz := axis_trace_stepped b.steps_z s.counter_z
  { s with
    out_x := sx, out_y := sy, out_z := sz
    counter_x := axis_trace_counter b.steps_x b.step_event_count s.counter_x
    counter_y := axis_trace_counter b.steps_y b.step_event_count s.counter_y
    counter_z := axis_trace_counter b.steps_z b.step_event_count s.counter_z
    position_x := if sx then (if b.dir_x then s.position_x - 1 else s.position_x + 1)
                  else s.position_x
    position_y := if sy then (if b.dir_y then s.position_y - 1 else s.position_y + 1)
                  else s.position_y
    position_z := if sz then (if b.dir_z then s.position_z - 1 else s.position_z + 1)
                  else s.position_z
    step_events_completed := s.step_events_completed + 1 }

/-- One full line step event (the `TYPE_LINE` case of the ISR switch,
stepper.c lines 271-357): tracer, then speed adjustment. -/
def line_event (b : Block) (s : StepperState) : StepperState :=
  speed_adjustment b (line_trace b s)

/-- Embeds the new-line-block initialization (stepper.c lines 258-266):
seed `adjusted_rate` from `initial_rate`, start the acceleration tick
accumulator halfway (midpoint rule), program the timer, and seed the three
Bresenham counters with `-(step_event_count >> 1)`. -/
def line_block_init (b : Block) (s : StepperState) : StepperState :=
  let s1 := { s with
    adjusted_rate := b.initial_rate
    acceleration_tick_counter := CYCLES_PER_ACCELERATION_TICK / 2 }
  let s2 := adjust_speed_state b s1.adjusted_rate s1
  { s2 with
    counter_x := -(((b.step_event_count >>> 1) : Nat) : Int)
    counter_y := -(((b.step_event_count >>> 1) : Nat) : Int)
    counter_z := -(((b.step_event_count >>> 1) : Nat) : Int)
    step_events_completed := 0 }

/-- Execution of one line block: state after the block initialization and
`k` line step events (dispatch invocations) of block `b`. -/
def line_run (b : Block) (s : StepperState) : Nat → StepperState
  | 0 => line_block_init b s
  | k + 1 => line_event b (line_run b s k)

/-- Ghost count of how often the X step bit was set during the first `k`
events of a line block. -/
def xStepCount (b : Block) (s : StepperState) : Nat → Nat
  | 0 => 0
  | k + 1 => xStepCount b s k + (if (line_run b s (k + 1)).out_x then 1 else 0)

/-- Ghost count of Y step bits during the first `k` events. -/
def yStepCount (b : Block) (s : StepperState) : Nat → Nat
  | 0 => 0
  | k + 1 => yStepCount b s k + (if (line_run b s (k + 1)).out_y then 1 else 0)

/-- Ghost count of Z step bits during the first `k` events. -/
def zStepCount (b : Block) (s : StepperState) : Nat → Nat
  | 0 => 0
  | k + 1 => zStepCount b s k + (if (line_run b s (k + 1)).out_z then 1 else 0)

/-- Pure single-axis Bresenham iteration: the counter after `k` events
starting from `c0`. -/
def axisIter (steps n : Nat) (c0 : Int) : Nat → Int
  | 0 => c0
  | k + 1 => axis_trace_counter steps n (axisIter steps n c0 k)

/-- Pure single-axis step count over the first `k` events. -/
def axisCount (steps n : Nat) (c0 : Int) : Nat → Nat
  | 0 => 0
  | k + 1 => axisCount steps n c0 k +
      (if axis_trace_stepped steps (axisIter steps n c0 k) then 1 else 0)

/-- Embeds the per-kind block processing of the ISR switch (stepper.c lines
270-377).  The non-motion kinds act on the actuators once and are released
and discarded immediately. -/
def exec_block (b : Block) (s : StepperState) : StepperState :=
  match b.btype with
  | BlockType.line => line_event b s
  | BlockType.airgasDisable =>
    { s with air_on := false, gas_on := false, current_block := none, queue := s.queue.tail }
  | BlockType.airEnable =>
    { s with air_on := true, current_block := none, queue := s.queue.tail }
  | BlockType.gasEnable =>
    { s with gas_on := true, current_block := none, queue := s.queue.tail }

/-- Embeds one invocation of the stepper ISR (stepper.c lines 206-380).
In order: the stop check (lines 209-217; `planner_reset_block_buffer` is
modelled from the spec as dropping all queued blocks, and the position
resynchronization requests to the planner and the G-code interpreter are
external effects outside this state); the sense check (lines 219-233); the
pulse emission (lines 237-241, recorded by the ghost `pulse_count`); block
acquisition with line initialization (lines 249-267,
`planner_get_current_block` modelled from the spec as peeking the oldest
queued block); and per-kind processing.  The busy reentrancy guard is not
modelled: invocations are already atomic steps here. -/
def isr_step (i : SenseInput) (s : StepperState) : StepperState :=
  if s.stop_requested then
    { stepper_go_idle s with queue := [] }
  else if sense_any i then
    (if i.limits then stepper_request_stop STATUS_STOP_LIMIT_HIT s
     else if i.chiller_off then stepper_request_stop STATUS_STOP_CHILLER_OFF s
     else if i.power_off then stepper_request_stop STATUS_STOP_POWER_OFF s
     else s)
  else
    let s1 := { s with pulse_count := s.pulse_count + 1 }
    match s1.current_block with
    | some b => exec_block b s1
    | none =>
      match s1.queue.head? with
      | none => stepper_go_idle s1
      | some b =>
        let s2 := { s1 with current_block := some b }
        let s3 := if b.btype = BlockType.line then line_block_init b s2 else s2
        exec_block b s3

/-- A quiescent concrete state used by the witnesses. -/
def initState : StepperState :=
  { position_x := 0, position_y := 0, position_z := 0
    current_block := none
    out_x := false, out_y := false, out_z := false
    counter_x := 0, counter_y := 0, counter_z := 0
    step_events_completed := 0
    cycles_per_step_event := 0
    acceleration_tick_counter := 0
    adjusted_rate := 0
    processing_flag := false
    stop_requested := false
    stop_status := STATUS_OK
    laser_intensity := 0
    air_on := false, gas_on := false
    queue := []
    pulse_count := 0 }

/-- The concrete line block of claim C1's example: steps_x = 4, steps_y = 6,
step_event_count = 6. -/
def exampleBlockC1 : Block :=
  { btype := BlockType.line
    steps_x := 4, steps_y := 6, steps_z := 0
    step_event_count := 6
    dir_x := false, dir_y := false, dir_z := false
    initial_rate := 6000, nominal_rate := 9000, final_rate := 6000, rate_delta := 10
    accelerate_until := 2, decelerate_after := 4
    nominal_laser_intensity := 0 }

/-- A concrete line block whose deceleration phase starts immediately
(decelerate_after = 0) with the rate seeded below final_rate, and whose
step rate is so fast that no acceleration tick fires on the first event. -/
def decelSeedBlock : Block :=
  { btype := BlockType.line
    steps_x := 5, steps_y := 3, steps_z := 0
    step_event_count := 5
    dir_x := false, dir_y := false, dir_z := false
    initial_rate := 960000000, nominal_rate := 1000000000, final_rate := 960000001
    rate_delta := 1
    accelerate_until := 0, decelerate_after := 0
    nominal_laser_intensity := 0 }

/-- A concrete trapezoid block used by the C2 witness. -/
def trapezoidBlock : Block :=
  { btype := BlockType.line
    steps_x := 8, steps_y := 2, steps_z := 0
    step_event_count := 8
    dir_x := false, dir_y := false, dir_z := false
    initial_rate := 2000, nominal_rate := 9000, final_rate := 1500, rate_delta := 100
    accelerate_until := 3, decelerate_after := 5
    nominal_laser_intensity := 120 }

/-- A concrete sense input with only the door open. -/
def doorOnlyInput : SenseInput :=
  { limits := false, chiller_off := false, power_off := false, door_open := true }

/-- A concrete sense input with a limit switch hit. -/
def limitHitInput : SenseInput :=
  { limits := true, chiller_off := false, power_off := false, door_open := false }

/-- A concrete sense input with everything clear. -/
def clearInput : SenseInput :=
  { limits := false, chiller_off := false, power_off := false, door_open := false }

/-- A concrete mid-motion state with a stop requested. -/
def stoppingState : StepperState :=
  { initState with
    processing_flag := true
    stop_requested := true
    stop_status := STATUS_STOP_LIMIT_HIT
    current_block := some exampleBlockC1
    queue := [exampleBlockC1, trapezoidBlock]
    position_x := 11, position_y := -4, position_z := 2
    step_events_completed := 3
    pulse_count := 42 }

/-- A concrete mid-motion state with no stop requested. -/
def runningState : StepperState :=
  { stoppingState with stop_requested := false, stop_status := STATUS_OK }

end Stepper

namespace Stepper

/-- C3: the claim is right about the intended clamping and the code is
wrong.  For an input above 0x3ffffff the quantizer does configure the
slowest representable rate — maximum reload 0xffff at the largest divisor
1024, whose true period is 0xffff * 1024 = 67107840 cycles — but the value
it returns comes from the un-suffixed 16-bit multiply `0xffff * 1024`,
which wraps to 64512, so the function does not return exactly
0xffff * 1024 as the claim (and the function's own comment, which promises
the actual number of cycles per interrupt) states; all other branches use
L-suffixed 32-bit products.  Evaluated at the failing input 0x4000000. -/
theorem c3_clamp_wraps :
    (config_step_timer 0x4000000).ceiling = 0xffff ∧
    (config_step_timer 0x4000000).prescaler = 4 ∧
    prescalerDivisor (config_step_timer 0x4000000).prescaler = 1024 ∧
    (config_step_timer 0x4000000).ceiling *
      prescalerDivisor (config_step_timer 0x4000000).prescaler = 67107840 ∧
    (config_step_timer 0x4000000).actual_cycles = 64512 ∧
    ¬ ((config_step_timer 0x4000000).actual_cycles = 0xffff * 1024) := by
  refine ⟨by decide, by decide, by decide, by decide, by decide, by decide⟩

/-- C10: every call to `adjust_speed` dereferences `current_block` to read
`nominal_laser_intensity` (it succeeds exactly when a current block exists),
and `stepper_init` calls `adjust_speed(MINIMUM_STEPS_PER_MINUTE)` at a point
where `current_block` is null, so the initialization path dereferences a
null block reference (modelled: that call yields `none`). -/
theorem c10_adjust_speed_null_deref :
    (∀ spm : Nat, adjust_speed none spm = none) ∧
    (∀ (spm : Nat) (b : Block), (adjust_speed (some b) spm).isSome = true) ∧
    stepper_init_current_block = none ∧
    stepper_init_adjust_speed_result = none :=
  ⟨fun _ => rfl, fun _ _ => rfl, rfl, rfl⟩

/-- C6 counterexample: the claim says homing phase 2 (leave) pulses with a
shorter period than phase 1 (approach); in the code `leave_limit_switch`
passes 10000 microseconds per pulse while `approach_limit_switch` passes
1000, so phase 2 is slower, not faster. -/
theorem c6_counterexample :
    ¬ ((leave_limit_switch true true false).microseconds_per_pulse <
       (approach_limit_switch true true false).microseconds_per_pulse) := by
  decide

/-- C6 amended: phase 2 (leave, direction reversed) steps at a slower pulse
rate (10000 microseconds per pulse) than phase 1 (approach, 1000
microseconds per pulse). -/
theorem c6_homing_rates_amended :
    (approach_limit_switch true true false).microseconds_per_pulse = 1000 ∧
    (leave_limit_switch true true false).microseconds_per_pulse = 10000 ∧
    (approach_limit_switch true true false).microseconds_per_pulse <
      (leave_limit_switch true true false).microseconds_per_pulse := by
  decide

/-- While the X axis is active with switch asserted and a nonzero overshoot
counter, the X update only decrements the counter. -/
theorem homing_axis_update_x_count (x_hit : Bool) (s : HomingState)
    (ha : s.x_axis = true) (hh : x_hit = true) (ho : ¬ s.x_overshoot_count = 0) :
    homing_axis_update_x x_hit s = { s with x_overshoot_count := s.x_overshoot_count - 1 } := by
  unfold homing_axis_update_x
  rw [ha, hh]
  simp [ho]

/-- When the X axis is active with switch asserted and the overshoot counter
exhausted, the X update stops the axis and removes its step bit. -/
theorem homing_axis_update_x_stopping (x_hit : Bool) (s : HomingState)
    (ha : s.x_axis = true) (hh : x_hit = true) (ho : s.x_overshoot_count = 0) :
    homing_axis_update_x x_hit s = { s with x_axis := false, x_bit := !s.x_bit } := by
  unfold homing_axis_update_x
  rw [ha, hh]
  simp [ho]

/-- An inactive X axis is untouched by the X update. -/
theorem homing_axis_update_x_off (x_hit : Bool) (s : HomingState)
    (ha : s.x_axis = false) :
    homing_axis_update_x x_hit s = s := by
  unfold homing_axis_update_x
  rw [ha]
  simp

/-- The Y update never touches the X fields, the Z flag or the exit flag. -/
theorem homing_axis_update_y_preserves_x (y_hit : Bool) (s : HomingState) :
    (homing_axis_update_y y_hit s).x_axis = s.x_axis ∧
    (homing_axis_update_y y_hit s).x_bit = s.x_bit ∧
    (homing_axis_update_y y_hit s).x_overshoot_count = s.x_overshoot_count ∧
    (homing_axis_update_y y_hit s).x_pulses = s.x_pulses ∧
    (homing_axis_update_y y_hit s).done = s.done := by
  unfold homing_axis_update_y
  split_ifs <;> simp

/-- While the X axis is still active, the pulse step pulses it (its step bit
is present) and the loop does not exit. -/
theorem homing_pulse_x_active (s : HomingState) (hx : s.x_axis = true) :
    (homing_pulse s).x_axis = true ∧
    (homing_pulse s).x_bit = s.x_bit ∧
    (homing_pulse s).x_overshoot_count = s.x_overshoot_count ∧
    (homing_pulse s).x_pulses = s.x_pulses + (if s.x_bit = true then 1 else 0) ∧
    (homing_pulse s).done = s.done := by
  unfold homing_pulse
  rw [if_pos (by simp [hx])]
  simp [hx]

/-- A stopped X axis (flag cleared, step bit removed) receives no further
pulses from the pulse step, whether or not the loop exits. -/
theorem homing_pulse_x_off (s : HomingState) (hx : s.x_axis = false)
    (hb : s.x_bit = false) :
    (homing_pulse s).x_axis = false ∧
    (homing_pulse s).x_bit = false ∧
    (homing_pulse s).x_pulses = s.x_pulses := by
  unfold homing_pulse
  split_ifs <;> simp_all

/-- Effect of one homing loop iteration on the X fields while the X axis is
active with its switch condition asserted and a nonzero overshoot counter:
the counter decrements, one X pulse is emitted, and the loop does not exit,
whatever the other axes do. -/
theorem homing_loop_step_x_countdown (y_hit : Bool) (s : HomingState)
    (hd : s.done = false) (ha : s.x_axis = true) (hb : s.x_bit = true)
    (ho : ¬ s.x_overshoot_count = 0) :
    (homing_loop_step true y_hit s).x_axis = true ∧
    (homing_loop_step true y_hit s).x_bit = true ∧
    (homing_loop_step true y_hit s).x_overshoot_count = s.x_overshoot_count - 1 ∧
    (homing_loop_step true y_hit s).x_pulses = s.x_pulses + 1 ∧
    (homing_loop_step true y_hit s).done = false := by
  have hx := homing_axis_update_x_count true s ha rfl ho
  obtain ⟨q1, q2, q3, q4, q5⟩ :=
    homing_axis_update_y_preserves_x y_hit (homing_axis_update_x true s)
  have h1 : (homing_axis_update_y y_hit (homing_axis_update_x true s)).x_axis = true := by
    rw [q1, hx]; exact ha
  have h2 : (homing_axis_update_y y_hit (homing_axis_update_x true s)).x_bit = true := by
    rw [q2, hx]; exact hb
  have h3 : (homing_axis_update_y y_hit (homing_axis_update_x true s)).x_overshoot_count =
      s.x_overshoot_count - 1 := by
    rw [q3, hx]
  have h4 : (homing_axis_update_y y_hit (homing_axis_update_x true s)).x_pulses =
      s.x_pulses := by
    rw [q4, hx]
  have h5 : (homing_axis_update_y y_hit (homing_axis_update_x true s)).done = false := by
    rw [q5, hx]; exact hd
  obtain ⟨r1, r2, r3, r4, r5⟩ :=
    homing_pulse_x_active (homing_axis_update_y y_hit (homing_axis_update_x true s)) h1
  have hstep : homing_loop_step true y_hit s =
      homing_pulse (homing_axis_update_y y_hit (homing_axis_update_x true s)) := by
    unfold homing_loop_step
    rw [if_neg (by simp [hd])]
  rw [hstep]
  refine ⟨r1, by rw [r2]; exact h2, by rw [r3]; exact h3, ?_, by rw [r5]; exact h5⟩
  rw [r4, h2, h4]
  simp

/-- Effect of one homing loop iteration on the X fields when the X axis is
active, its switch condition asserted, and the overshoot counter exhausted:
the axis is stopped, its step bit removed, and no X pulse is emitted. -/
theorem homing_loop_step_x_stop (y_hit : Bool) (s : HomingState)
    (hd : s.done = false) (ha : s.x_axis = true) (hb : s.x_bit = true)
    (ho : s.x_overshoot_count = 0) :
    (homing_loop_step true y_hit s).x_axis = false ∧
    (homing_loop_step true y_hit s).x_bit = false ∧
    (homing_loop_step true y_hit s).x_pulses = s.x_pulses := by
  have hx := homing_axis_update_x_stopping true s ha rfl ho
  obtain ⟨q1, q2, q3, q4, q5⟩ :=
    homing_axis_update_y_preserves_x y_hit (homing_axis_update_x true s)
  have h1 : (homing_axis_update_y y_hit (homing_axis_update_x true s)).x_axis = false := by
    rw [q1, hx]
  have h2 : (homing_axis_update_y y_hit (homing_axis_update_x true s)).x_bit = false := by
    rw [q2, hx]
    simp [hb]
  have h4 : (homing_axis_update_y y_hit (homing_axis_update_x true s)).x_pulses =
      s.x_pulses := by
    rw [q4, hx]
  obtain ⟨r1, r2, r3⟩ :=
    homing_pulse_x_off (homing_axis_update_y y_hit (homing_axis_update_x true s)) h1 h2
  have hstep : homing_loop_step true y_hit s =
      homing_pulse (homing_axis_update_y y_hit (homing_axis_update_x true s)) := by
    unfold homing_loop_step
    rw [if_neg (by simp [hd])]
  rw [hstep]
  exact ⟨r1, r2, by rw [r3]; exact h4⟩

/-- Once the X axis is stopped (flag cleared, step bit removed), later
iterations never touch it again. -/
theorem homing_loop_step_x_inactive (x_hit y_hit : Bool) (s : HomingState)
    (ha : s.x_axis = false) (hb : s.x_bit = false) :
    (homing_loop_step x_hit y_hit s).x_axis = false ∧
    (homing_loop_step x_hit y_hit s).x_bit = false ∧
    (homing_loop_step x_hit y_hit s).x_pulses = s.x_pulses := by
  rcases hdone : s.done with hfalse | htrue
  · have hx := homing_axis_update_x_off x_hit s ha
    obtain ⟨q1, q2, q3, q4, q5⟩ :=
      homing_axis_update_y_preserves_x y_hit (homing_axis_update_x x_hit s)
    have h1 : (homing_axis_update_y y_hit (homing_axis_update_x x_hit s)).x_axis = false := by
      rw [q1, hx]; exact ha
    have h2 : (homing_axis_update_y y_hit (homing_axis_update_x x_hit s)).x_bit = false := by
      rw [q2, hx]; exact hb
    have h4 : (homing_axis_update_y y_hit (homing_axis_update_x x_hit s)).x_pulses =
        s.x_pulses := by
      rw [q4, hx]
    obtain ⟨r1, r2, r3⟩ :=
      homing_pulse_x_off (homing_axis_update_y y_hit (homing_axis_update_x x_hit s)) h1 h2
    have hstep : homing_loop_step x_hit y_hit s =
        homing_pulse (homing_axis_update_y y_hit (homing_axis_update_x x_hit s)) := by
      unfold homing_loop_step
      rw [if_neg (by simp [hdone])]
    rw [hstep]
    exact ⟨r1, r2, by rw [r3]; exact h4⟩
  · have hstep : homing_loop_step x_hit y_hit s = s := by
      unfold homing_loop_step
      rw [if_pos hdone]
    rw [hstep]
    exact ⟨ha, hb, rfl⟩

/-- Invariant of the homing loop with the X switch condition constantly
asserted: during the first 6 iterations the X axis keeps stepping while its
overshoot counter counts down; from iteration 7 on it is stopped with
exactly 6 pulses emitted, whatever the other axis does. -/
theorem homing_x_held_invariant (y_axis : Bool) (y_in : Nat → Bool) :
    ∀ k,
      (k ≤ 6 →
        (homing_x_held_run y_axis y_in k).x_axis = true ∧
        (homing_x_held_run y_axis y_in k).x_bit = true ∧
        (homing_x_held_run y_axis y_in k).x_overshoot_count = 6 - k ∧
        (homing_x_held_run y_axis y_in k).x_pulses = k ∧
        (homing_x_held_run y_axis y_in k).done = false) ∧
      (6 < k →
        (homing_x_held_run y_axis y_in k).x_axis = false ∧
        (homing_x_held_run y_axis y_in k).x_bit = false ∧
        (homing_x_held_run y_axis y_in k).x_pulses = 6) := by
  intro k
  induction k with
  | zero => simp [homing_x_held_run, homing_run, homing_init]
  | succ k ih =>
    have hstep : homing_x_held_run y_axis y_in (k + 1) =
        homing_loop_step true (y_in k) (homing_x_held_run y_axis y_in k) := rfl
    rcases Nat.lt_or_ge k 6 with hk | hk
    · -- k ≤ 5, hence k + 1 ≤ 6: the overshoot counter is still nonzero
      obtain ⟨ha, hb, ho, hp, hd⟩ := ih.1 (by omega)
      have hoz : ¬ (homing_x_held_run y_axis y_in k).x_overshoot_count = 0 := by omega
      obtain ⟨g1, g2, g3, g4, g5⟩ :=
        homing_loop_step_x_countdown (y_in k) (homing_x_held_run y_axis y_in k) hd ha hb hoz
      rw [hstep]
      exact ⟨fun _ => ⟨g1, g2, by omega, by omega, g5⟩, fun hcontra => absurd hcontra (by omega)⟩
    · rcases Nat.eq_or_lt_of_le hk with hk6 | hk7
      · -- k = 6: the overshoot counter reached zero, the axis is stopped now
        obtain ⟨ha, hb, ho, hp, hd⟩ := ih.1 (by omega)
        have hoz : (homing_x_held_run y_axis y_in k).x_overshoot_count = 0 := by omega
        obtain ⟨g1, g2, g3⟩ :=
          homing_loop_step_x_stop (y_in k) (homing_x_held_run y_axis y_in k) hd ha hb hoz
        rw [hstep]
        exact ⟨fun hcontra => absurd hcontra (by omega), fun _ => ⟨g1, g2, by omega⟩⟩
      · -- k ≥ 7: the axis is already stopped and stays stopped
        obtain ⟨ha, hb, hp⟩ := ih.2 (by omega)
        obtain ⟨g1, g2, g3⟩ :=
          homing_loop_step_x_inactive true (y_in k) (homing_x_held_run y_axis y_in k) ha hb
        rw [hstep]
        exact ⟨fun hcontra => absurd hcontra (by omega), fun _ => ⟨g1, g2, by omega⟩⟩


/-- C7: if the X limit switch condition is already asserted (and stays
asserted) when a homing phase begins, the X axis still emits exactly the
fixed overshoot count (6) of additional pulses — one per iteration for the
first 6 iterations — and from iteration 7 on it is no longer stepped, with
its pulse total frozen at 6; this holds for every behavior of the other
homed axis (each axis stops independently). -/
theorem c7_homing_overshoot (y_axis : Bool) (y_in : Nat → Bool) (k : Nat) :
    (homing_x_held_run y_axis y_in k).x_pulses = min k 6 ∧
    ((homing_x_held_run y_axis y_in k).x_axis = true ↔ k < 7) := by
  rcases Nat.lt_or_ge k 7 with hk | hk
  · obtain ⟨ha, hb, ho, hp, hd⟩ := (homing_x_held_invariant y_axis y_in k).1 (by omega)
    refine ⟨by omega, by simp [ha, hk]⟩
  · obtain ⟨ha, hb, hp⟩ := (homing_x_held_invariant y_axis y_in k).2 (by omega)
    refine ⟨by omega, by simp [ha]; omega⟩

/-- C9 counterexample: with both switch conditions held asserted each homing
phase completes in 7 loop iterations; starting from position (1, 2, 3),
`stepper_homing_cycle` (which homes only X and Y) leaves the Z position 0,
not 3 — the claim that the untouched Z axis keeps its position is false. -/
theorem c9_counterexample :
    stepper_homing_cycle_positions (fun _ => true) (fun _ => true) (fun _ => true)
        (fun _ => true) 7 7 (1, 2, 3) = some (0, 0, 0) ∧
    ¬ (stepper_homing_cycle_positions (fun _ => true) (fun _ => true) (fun _ => true)
        (fun _ => true) 7 7 (1, 2, 3) = some (1, 2, 3)) ∧
    ¬ (stepper_homing_cycle_positions (fun _ => true) (fun _ => true) (fun _ => true)
        (fun _ => true) 7 7 (1, 2, 3) = some (0, 0, 3)) := by
  refine ⟨by decide, by decide, by decide⟩

/-- C9 amended: whenever the homing cycle completes, the absolute position
is reset to zero for all three axes — including Z, which
`stepper_homing_cycle` does not home — because the final `clear_vector`
zeroes the whole position vector. -/
theorem c9_homing_zeroes_all_axes (ax_in ay_in lx_in ly_in : Nat → Bool)
    (fuel1 fuel2 : Nat) (pos : Int × Int × Int) :
    stepper_homing_cycle_positions ax_in ay_in lx_in ly_in fuel1 fuel2 pos = none ∨
    stepper_homing_cycle_positions ax_in ay_in lx_in ly_in fuel1 fuel2 pos = some (0, 0, 0) := by
  unfold stepper_homing_cycle_positions homing_cycle_positions clear_vector
  split_ifs <;> simp

/-- C4: if a stop is pending at the start of a dispatch invocation, that
invocation goes idle (processing flag cleared, current block dropped, laser
off) and empties the planner queue, touching nothing else — no pulse is
emitted and no motion state advances; a subsequent `stepper_resume` only
clears the stop flag, leaving the drained queue and the idle state in
place, so the discarded motion is not restarted. -/
theorem c4_stop_request_flushes (i : SenseInput) (s : StepperState)
    (h : s.stop_requested = true) :
    isr_step i s = { s with processing_flag := false, current_block := none,
                            laser_intensity := 0, queue := [] } ∧
    (stepper_resume (isr_step i s)).stop_requested = false ∧
    (stepper_resume (isr_step i s)).processing_flag = false ∧
    (stepper_resume (isr_step i s)).current_block = none ∧
    (stepper_resume (isr_step i s)).queue = [] ∧
    (isr_step i s).pulse_count = s.pulse_count ∧
    (isr_step i s).position_x = s.position_x ∧
    (isr_step i s).position_y = s.position_y ∧
    (isr_step i s).position_z = s.position_z ∧
    (isr_step i s).step_events_completed = s.step_events_completed := by
  have hstep : isr_step i s = { stepper_go_idle s with queue := [] } := by
    unfold isr_step
    rw [if_pos (by simp [h])]
  rw [hstep]
  unfold stepper_go_idle stepper_resume
  exact ⟨rfl, rfl, rfl, rfl, rfl, rfl, rfl, rfl, rfl, rfl⟩

/-- Closed witness for C4 at a concrete mid-motion state with a pending
stop. -/
theorem c4_witness :
    stoppingState.stop_requested = true ∧
    (isr_step limitHitInput stoppingState =
        { stoppingState with processing_flag := false, current_block := none,
                             laser_intensity := 0, queue := [] } ∧
      (stepper_resume (isr_step limitHitInput stoppingState)).stop_requested = false ∧
      (stepper_resume (isr_step limitHitInput stoppingState)).processing_flag = false ∧
      (stepper_resume (isr_step limitHitInput stoppingState)).current_block = none ∧
      (stepper_resume (isr_step limitHitInput stoppingState)).queue = [] ∧
      (isr_step limitHitInput stoppingState).pulse_count = stoppingState.pulse_count ∧
      (isr_step limitHitInput stoppingState).position_x = stoppingState.position_x ∧
      (isr_step limitHitInput stoppingState).position_y = stoppingState.position_y ∧
      (isr_step limitHitInput stoppingState).position_z = stoppingState.position_z ∧
      (isr_step limitHitInput stoppingState).step_events_completed =
        stoppingState.step_events_completed) :=
  ⟨by decide, c4_stop_request_flushes limitHitInput stoppingState (by decide)⟩

/-- C5: when any safety sensor is active at a dispatch invocation (and no
stop is already pending, which the ISR checks first), the invocation emits
no pulse and advances no motion state; a limit hit, chiller loss or power
loss requests a stop with the corresponding cause code (in that priority
order), while a door-only condition changes nothing at all, so motion
resumes automatically once the door closes. -/
theorem c5_sense_suspends (i : SenseInput) (s : StepperState)
    (hstop : s.stop_requested = false) (hany : sense_any i = true) :
    (isr_step i s).pulse_count = s.pulse_count ∧
    (isr_step i s).position_x = s.position_x ∧
    (isr_step i s).position_y = s.position_y ∧
    (isr_step i s).position_z = s.position_z ∧
    (isr_step i s).step_events_completed = s.step_events_completed ∧
    (isr_step i s).current_block = s.current_block ∧
    (isr_step i s).queue = s.queue ∧
    (isr_step i s).processing_flag = s.processing_flag ∧
    (i.limits = true →
      isr_step i s = { s with stop_requested := true,
                              stop_status := STATUS_STOP_LIMIT_HIT }) ∧
    (i.limits = false → i.chiller_off = true →
      isr_step i s = { s with stop_requested := true,
                              stop_status := STATUS_STOP_CHILLER_OFF }) ∧
    (i.limits = false → i.chiller_off = false → i.power_off = true →
      isr_step i s = { s with stop_requested := true,
                              stop_status := STATUS_STOP_POWER_OFF }) ∧
    (i.limits = false → i.chiller_off = false → i.power_off = false →
      isr_step i s = s) := by
  obtain ⟨l, c, p, d⟩ := i
  have hstep : isr_step ⟨l, c, p, d⟩ s =
      (if l then stepper_request_stop STATUS_STOP_LIMIT_HIT s
       else if c then stepper_request_stop STATUS_STOP_CHILLER_OFF s
       else if p then stepper_request_stop STATUS_STOP_POWER_OFF s
       else s) := by
    unfold isr_step
    rw [if_neg (by simp [hstop]), if_pos (by simp [hany])]
  rw [hstep]
  cases l <;> cases c <;> cases p <;>
    simp_all [stepper_request_stop, sense_any]

/-- Closed witness for C5: a door-only condition during motion leaves the
state entirely unchanged. -/
theorem c5_witness :
    runningState.stop_requested = false ∧
    sense_any doorOnlyInput = true ∧
    ((isr_step doorOnlyInput runningState).pulse_count = runningState.pulse_count ∧
     (isr_step doorOnlyInput runningState).position_x = runningState.position_x ∧
     (isr_step doorOnlyInput runningState).position_y = runningState.position_y ∧
     (isr_step doorOnlyInput runningState).position_z = runningState.position_z ∧
     (isr_step doorOnlyInput runningState).step_events_completed =
       runningState.step_events_completed ∧
     (isr_step doorOnlyInput runningState).current_block = runningState.current_block ∧
     (isr_step doorOnlyInput runningState).queue = runningState.queue ∧
     (isr_step doorOnlyInput runningState).processing_flag = runningState.processing_flag ∧
     (doorOnlyInput.limits = true →
       isr_step doorOnlyInput runningState =
         { runningState with stop_requested := true,
                             stop_status := STATUS_STOP_LIMIT_HIT }) ∧
     (doorOnlyInput.limits = false → doorOnlyInput.chiller_off = true →
       isr_step doorOnlyInput runningState =
         { runningState with stop_requested := true,
                             stop_status := STATUS_STOP_CHILLER_OFF }) ∧
     (doorOnlyInput.limits = false → doorOnlyInput.chiller_off = false →
       doorOnlyInput.power_off = true →
       isr_step doorOnlyInput runningState =
         { runningState with stop_requested := true,
                             stop_status := STATUS_STOP_POWER_OFF }) ∧
     (doorOnlyInput.limits = false → doorOnlyInput.chiller_off = false →
       doorOnlyInput.power_off = false →
       isr_step doorOnlyInput runningState = runningState)) :=
  ⟨by decide, by decide, c5_sense_suspends doorOnlyInput runningState (by decide) (by decide)⟩

/-- The single-axis Bresenham counter stays in the window (-n, 0] when the
axis step count is at most the cycle length n. -/
theorem axisIter_bounds {steps n : Nat} {c0 : Int} (hs : steps ≤ n)
    (hlo : -(n : Int) < c0) (hhi : c0 ≤ 0) :
    ∀ k, -(n : Int) < axisIter steps n c0 k ∧ axisIter steps n c0 k ≤ 0 := by
  intro k
  induction k with
  | zero => exact ⟨hlo, hhi⟩
  | succ k ih =>
    simp only [axisIter, axis_trace_counter]
    split_ifs with hpos
    · omega
    · omega

/-- The fundamental DDA identity: counter value after k events in terms of
the number of steps taken so far. -/
theorem axisIter_eq_count (steps n : Nat) (c0 : Int) :
    ∀ k, axisIter steps n c0 k =
      c0 + (k : Int) * (steps : Int) - (n : Int) * (axisCount steps n c0 k : Int) := by
  intro k
  induction k with
  | zero => simp [axisIter, axisCount]
  | succ k ih =>
    by_cases hpos : 0 < axisIter steps n c0 k + (steps : Int)
    · have hstep : axisIter steps n c0 (k + 1) = axisIter steps n c0 k + (steps : Int) - n := by
        simp only [axisIter, axis_trace_counter]
        rw [if_pos hpos]
      have hcnt : axisCount steps n c0 (k + 1) = axisCount steps n c0 k + 1 := by
        simp only [axisCount]
        rw [if_pos (by simp only [axis_trace_stepped, decide_eq_true_eq]; exact hpos)]
      rw [hstep, hcnt, ih]
      push_cast
      ring
    · have hstep : axisIter steps n c0 (k + 1) = axisIter steps n c0 k + (steps : Int) := by
        simp only [axisIter, axis_trace_counter]
        rw [if_neg hpos]
      have hcnt : axisCount steps n c0 (k + 1) = axisCount steps n c0 k := by
        simp only [axisCount]
        rw [if_neg (by simp only [axis_trace_stepped, decide_eq_true_eq]; exact hpos)]
        omega
      rw [hstep, hcnt, ih]
      push_cast
      ring

/-- Over one full cycle of n events the axis steps exactly `steps` times. -/
theorem axisCount_full_cycle {steps n : Nat} (hs : steps ≤ n) (hn : 0 < n)
    {c0 : Int} (hlo : -(n : Int) < c0) (hhi : c0 ≤ 0) :
    axisCount steps n c0 n = steps := by
  obtain ⟨hA1, hA2⟩ := axisIter_bounds hs hlo hhi n
  have he := axisIter_eq_count steps n c0 n
  have key : (n : Int) * ((steps : Int) - (axisCount steps n c0 n : Int)) =
      axisIter steps n c0 n - c0 := by
    rw [he]; ring
  have hub : axisIter steps n c0 n - c0 < (n : Int) := by omega
  have hlb : -(n : Int) < axisIter steps n c0 n - c0 := by omega
  have hd : (steps : Int) - (axisCount steps n c0 n : Int) = 0 := by
    by_contra hne
    rcases lt_or_gt_of_ne hne with hlt | hgt
    · have h1 : (steps : Int) - (axisCount steps n c0 n : Int) ≤ -1 := by omega
      have h2 : (n : Int) * ((steps : Int) - (axisCount steps n c0 n : Int)) ≤
          (n : Int) * (-1) := mul_le_mul_of_nonneg_left h1 (by positivity)
      rw [key] at h2
      simp only [mul_neg_one] at h2
      omega
    · have h1 : (1 : Int) ≤ (steps : Int) - (axisCount steps n c0 n : Int) := by omega
      have h2 : (n : Int) * 1 ≤
          (n : Int) * ((steps : Int) - (axisCount steps n c0 n : Int)) :=
        mul_le_mul_of_nonneg_left h1 (by positivity)
      rw [key] at h2
      simp only [mul_one] at h2
      omega
  omega

/-- After a full n-event cycle the counter returns to its seed value. -/
theorem axisIter_full_cycle {steps n : Nat} (hs : steps ≤ n) (hn : 0 < n)
    {c0 : Int} (hlo : -(n : Int) < c0) (hhi : c0 ≤ 0) :
    axisIter steps n c0 n = c0 := by
  have he := axisIter_eq_count steps n c0 n
  rw [axisCount_full_cycle hs hn hlo hhi] at he
  rw [he]
  ring

/-- A dominant axis (step count equal to the cycle length) steps on every
event. -/
theorem axis_dominant_steps {n : Nat} (hn : 0 < n) {c0 : Int}
    (hlo : -(n : Int) < c0) (hhi : c0 ≤ 0) (k : Nat) :
    axis_trace_stepped n (axisIter n n c0 k) = true := by
  obtain ⟨h1, h2⟩ := axisIter_bounds (le_refl n) hlo hhi k
  simp only [axis_trace_stepped, decide_eq_true_eq]
  omega

/-- The Bresenham seed `-(step_event_count >> 1)` lies in the window
(-n, 0] for any nonempty block. -/
theorem seed_bounds {n : Nat} (hn : 0 < n) :
    -(n : Int) < -(((n >>> 1) : Nat) : Int) ∧ -(((n >>> 1) : Nat) : Int) ≤ 0 := by
  have hdiv : n >>> 1 = n / 2 ^ 1 := Nat.shiftRight_eq_div_pow n 1
  rw [hdiv]
  norm_num
  omega

/-- `adjust_speed_state` only writes the timer and laser fields. -/
theorem adjust_speed_state_proj (b : Block) (r : Nat) (s : StepperState) :
    (adjust_speed_state b r s).counter_x = s.counter_x ∧
    (adjust_speed_state b r s).counter_y = s.counter_y ∧
    (adjust_speed_state b r s).counter_z = s.counter_z ∧
    (adjust_speed_state b r s).out_x = s.out_x ∧
    (adjust_speed_state b r s).out_y = s.out_y ∧
    (adjust_speed_state b r s).out_z = s.out_z ∧
    (adjust_speed_state b r s).step_events_completed = s.step_events_completed ∧
    (adjust_speed_state b r s).adjusted_rate = s.adjusted_rate :=
  ⟨rfl, rfl, rfl, rfl, rfl, rfl, rfl, rfl⟩

/-- `acceleration_tick_update` only writes the tick accumulator. -/
theorem acceleration_tick_update_proj (s : StepperState) :
    (acceleration_tick_update s).counter_x = s.counter_x ∧
    (acceleration_tick_update s).counter_y = s.counter_y ∧
    (acceleration_tick_update s).counter_z = s.counter_z ∧
    (acceleration_tick_update s).out_x = s.out_x ∧
    (acceleration_tick_update s).out_y = s.out_y ∧
    (acceleration_tick_update s).out_z = s.out_z ∧
    (acceleration_tick_update s).step_events_completed = s.step_events_completed ∧
    (acceleration_tick_update s).adjusted_rate = s.adjusted_rate := by
  unfold acceleration_tick_update
  dsimp only
  split_ifs <;> exact ⟨rfl, rfl, rfl, rfl, rfl, rfl, rfl, rfl⟩

/-- The speed-adjustment section never touches the Bresenham counters, the
step bits or the event count. -/
theorem speed_adjustment_preserves (b : Block) (s : StepperState) :
    (speed_adjustment b s).counter_x = s.counter_x ∧
    (speed_adjustment b s).counter_y = s.counter_y ∧
    (speed_adjustment b s).counter_z = s.counter_z ∧
    (speed_adjustment b s).out_x = s.out_x ∧
    (speed_adjustment b s).out_y = s.out_y ∧
    (speed_adjustment b s).out_z = s.out_z ∧
    (speed_adjustment b s).step_events_completed = s.step_events_completed := by
  unfold speed_adjustment
  dsimp only
  split_ifs <;>
    simp [adjust_speed_state_proj, acceleration_tick_update_proj]

/-- The tracer part of a line event, seen field by field. -/
theorem line_trace_proj (b : Block) (u : StepperState) :
    (line_trace b u).counter_x = axis_trace_counter b.steps_x b.step_event_count u.counter_x ∧
    (line_trace b u).counter_y = axis_trace_counter b.steps_y b.step_event_count u.counter_y ∧
    (line_trace b u).counter_z = axis_trace_counter b.steps_z b.step_event_count u.counter_z ∧
    (line_trace b u).out_x = axis_trace_stepped b.steps_x u.counter_x ∧
    (line_trace b u).out_y = axis_trace_stepped b.steps_y u.counter_y ∧
    (line_trace b u).out_z = axis_trace_stepped b.steps_z u.counter_z ∧
    (line_trace b u).step_events_completed = u.step_events_completed + 1 ∧
    (line_trace b u).adjusted_rate = u.adjusted_rate :=
  ⟨rfl, rfl, rfl, rfl, rfl, rfl, rfl, rfl⟩

/-- Bridge between the stateful line execution and the pure single-axis
iteration: the three counters follow `axisIter` from the common seed, and
the event counter counts the events. -/
theorem line_run_proj (b : Block) (s : StepperState) :
    ∀ k,
      (line_run b s k).counter_x =
        axisIter b.steps_x b.step_event_count (-((b.step_event_count >>> 1 : Nat) : Int)) k ∧
      (line_run b s k).counter_y =
        axisIter b.steps_y b.step_event_count (-((b.step_event_count >>> 1 : Nat) : Int)) k ∧
      (line_run b s k).counter_z =
        axisIter b.steps_z b.step_event_count (-((b.step_event_count >>> 1 : Nat) : Int)) k ∧
      (line_run b s k).step_events_completed = k := by
  intro k
  induction k with
  | zero => exact ⟨rfl, rfl, rfl, rfl⟩
  | succ k ih =>
    obtain ⟨ix, iy, iz, ie⟩ := ih
    have hrun : line_run b s (k + 1) = speed_adjustment b (line_trace b (line_run b s k)) := rfl
    obtain ⟨px, py, pz, pox, poy, poz, pe⟩ :=
      speed_adjustment_preserves b (line_trace b (line_run b s k))
    obtain ⟨tx, ty, tz, tox, toy, toz, te, tr⟩ := line_trace_proj b (line_run b s k)
    refine ⟨?_, ?_, ?_, ?_⟩
    · rw [hrun, px, tx, ix]; rfl
    · rw [hrun, py, ty, iy]; rfl
    · rw [hrun, pz, tz, iz]; rfl
    · rw [hrun, pe, te, ie]

/-- Bridge for the step bits: the bit emitted at event k+1 is the pure
stepped test at the counter after k events. -/
theorem line_run_out (b : Block) (s : StepperState) (k : Nat) :
    (line_run b s (k + 1)).out_x =
      axis_trace_stepped b.steps_x
        (axisIter b.steps_x b.step_event_count (-((b.step_event_count >>> 1 : Nat) : Int)) k) ∧
    (line_run b s (k + 1)).out_y =
      axis_trace_stepped b.steps_y
        (axisIter b.steps_y b.step_event_count (-((b.step_event_count >>> 1 : Nat) : Int)) k) ∧
    (line_run b s (k + 1)).out_z =
      axis_trace_stepped b.steps_z
        (axisIter b.steps_z b.step_event_count (-((b.step_event_count >>> 1 : Nat) : Int)) k) := by
  obtain ⟨ix, iy, iz, ie⟩ := line_run_proj b s k
  have hrun : line_run b s (k + 1) = speed_adjustment b (line_trace b (line_run b s k)) := rfl
  obtain ⟨px, py, pz, pox, poy, poz, pe⟩ :=
    speed_adjustment_preserves b (line_trace b (line_run b s k))
  obtain ⟨tx, ty, tz, tox, toy, toz, te, tr⟩ := line_trace_proj b (line_run b s k)
  refine ⟨?_, ?_, ?_⟩
  · rw [hrun, pox, tox, ix]
  · rw [hrun, poy, toy, iy]
  · rw [hrun, poz, toz, iz]

/-- The ghost step-bit counters agree with the pure `axisCount`. -/
theorem stepCount_eq_axisCount (b : Block) (s : StepperState) :
    ∀ k,
      xStepCount b s k =
        axisCount b.steps_x b.step_event_count (-((b.step_event_count >>> 1 : Nat) : Int)) k ∧
      yStepCount b s k =
        axisCount b.steps_y b.step_event_count (-((b.step_event_count >>> 1 : Nat) : Int)) k ∧
      zStepCount b s k =
        axisCount b.steps_z b.step_event_count (-((b.step_event_count >>> 1 : Nat) : Int)) k := by
  intro k
  induction k with
  | zero => exact ⟨rfl, rfl, rfl⟩
  | succ k ih =>
    obtain ⟨hx, hy, hz⟩ := ih
    obtain ⟨ox, oy, oz⟩ := line_run_out b s k
    exact ⟨by simp only [xStepCount, axisCount, hx, ox],
           by simp only [yStepCount, axisCount, hy, oy],
           by simp only [zStepCount, axisCount, hz, oz]⟩

/-- C1: over exactly `step_event_count` dispatch invocations of a line
block, the tracer sets each axis's step bit exactly that axis's declared
step count times, and a dominant axis (step count equal to
`step_event_count`) has its step bit set on every invocation.  The
hypothesis `step_event_count < 2 ^ 31` keeps the `Int` model inside the
`int32_t` range of the C counters. -/
theorem c1_bresenham_step_counts (b : Block) (s : StepperState)
    (hx : b.steps_x ≤ b.step_event_count) (hy : b.steps_y ≤ b.step_event_count)
    (hz : b.steps_z ≤ b.step_event_count) (hn : 0 < b.step_event_count)
    (hw : b.step_event_count < 2 ^ 31) :
    xStepCount b s b.step_event_count = b.steps_x ∧
    yStepCount b s b.step_event_count = b.steps_y ∧
    zStepCount b s b.step_event_count = b.steps_z ∧
    (b.steps_x = b.step_event_count →
      ∀ k, k < b.step_event_count → (line_run b s (k + 1)).out_x = true) ∧
    (b.steps_y = b.step_event_count →
      ∀ k, k < b.step_event_count → (line_run b s (k + 1)).out_y = true) ∧
    (b.steps_z = b.step_event_count →
      ∀ k, k < b.step_event_count → (line_run b s (k + 1)).out_z = true) := by
  obtain ⟨hlo, hhi⟩ := seed_bounds (n := b.step_event_count) hn
  obtain ⟨ex, ey, ez⟩ := stepCount_eq_axisCount b s b.step_event_count
  refine ⟨?_, ?_, ?_, ?_, ?_, ?_⟩
  · rw [ex]; exact axisCount_full_cycle hx hn hlo hhi
  · rw [ey]; exact axisCount_full_cycle hy hn hlo hhi
  · rw [ez]; exact axisCount_full_cycle hz hn hlo hhi
  · intro hdom k hk
    obtain ⟨ox, oy, oz⟩ := line_run_out b s k
    rw [ox, hdom]
    exact axis_dominant_steps hn hlo hhi k
  · intro hdom k hk
    obtain ⟨ox, oy, oz⟩ := line_run_out b s k
    rw [oy, hdom]
    exact axis_dominant_steps hn hlo hhi k
  · intro hdom k hk
    obtain ⟨ox, oy, oz⟩ := line_run_out b s k
    rw [oz, hdom]
    exact axis_dominant_steps hn hlo hhi k

/-- Closed witness for C1 at the spec's concrete example block
(steps_x = 4, steps_y = 6, step_event_count = 6): Y steps on every event and
X steps on exactly 4 events. -/
theorem c1_witness :
    (exampleBlockC1.steps_x ≤ exampleBlockC1.step_event_count ∧
     exampleBlockC1.steps_y ≤ exampleBlockC1.step_event_count ∧
     exampleBlockC1.steps_z ≤ exampleBlockC1.step_event_count ∧
     0 < exampleBlockC1.step_event_count ∧
     exampleBlockC1.step_event_count < 2 ^ 31) ∧
    (xStepCount exampleBlockC1 initState exampleBlockC1.step_event_count =
       exampleBlockC1.steps_x ∧
     yStepCount exampleBlockC1 initState exampleBlockC1.step_event_count =
       exampleBlockC1.steps_y ∧
     zStepCount exampleBlockC1 initState exampleBlockC1.step_event_count =
       exampleBlockC1.steps_z ∧
     (exampleBlockC1.steps_x = exampleBlockC1.step_event_count →
       ∀ k, k < exampleBlockC1.step_event_count →
         (line_run exampleBlockC1 initState (k + 1)).out_x = true) ∧
     (exampleBlockC1.steps_y = exampleBlockC1.step_event_count →
       ∀ k, k < exampleBlockC1.step_event_count →
         (line_run exampleBlockC1 initState (k + 1)).out_y = true) ∧
     (exampleBlockC1.steps_z = exampleBlockC1.step_event_count →
       ∀ k, k < exampleBlockC1.step_event_count →
         (line_run exampleBlockC1 initState (k + 1)).out_z = true)) :=
  ⟨⟨by decide, by decide, by decide, by decide, by decide⟩,
    c1_bresenham_step_counts exampleBlockC1 initState (by decide) (by decide) (by decide)
      (by decide) (by decide)⟩

/-- C8: after a completed line block (exactly `step_event_count` events)
every Bresenham error accumulator is back at its initialization value
`-(step_event_count >> 1)`, so a following block with identical step counts
traces identically. -/
theorem c8_dda_periodicity (b : Block) (s : StepperState)
    (hx : b.steps_x ≤ b.step_event_count) (hy : b.steps_y ≤ b.step_event_count)
    (hz : b.steps_z ≤ b.step_event_count) (hn : 0 < b.step_event_count)
    (hw : b.step_event_count < 2 ^ 31) :
    (line_run b s b.step_event_count).counter_x = (line_run b s 0).counter_x ∧
    (line_run b s b.step_event_count).counter_y = (line_run b s 0).counter_y ∧
    (line_run b s b.step_event_count).counter_z = (line_run b s 0).counter_z ∧
    (line_run b s 0).counter_x = -((b.step_event_count >>> 1 : Nat) : Int) ∧
    (line_run b s 0).counter_y = -((b.step_event_count >>> 1 : Nat) : Int) ∧
    (line_run b s 0).counter_z = -((b.step_event_count >>> 1 : Nat) : Int) := by
  obtain ⟨hlo, hhi⟩ := seed_bounds (n := b.step_event_count) hn
  obtain ⟨ix, iy, iz, ie⟩ := line_run_proj b s b.step_event_count
  refine ⟨?_, ?_, ?_, rfl, rfl, rfl⟩
  · rw [ix, axisIter_full_cycle hx hn hlo hhi]; rfl
  · rw [iy, axisIter_full_cycle hy hn hlo hhi]; rfl
  · rw [iz, axisIter_full_cycle hz hn hlo hhi]; rfl

/-- Closed witness for C8 at the concrete example block. -/
theorem c8_witness :
    (exampleBlockC1.steps_x ≤ exampleBlockC1.step_event_count ∧
     exampleBlockC1.steps_y ≤ exampleBlockC1.step_event_count ∧
     exampleBlockC1.steps_z ≤ exampleBlockC1.step_event_count ∧
     0 < exampleBlockC1.step_event_count ∧
     exampleBlockC1.step_event_count < 2 ^ 31) ∧
    ((line_run exampleBlockC1 initState exampleBlockC1.step_event_count).counter_x =
       (line_run exampleBlockC1 initState 0).counter_x ∧
     (line_run exampleBlockC1 initState exampleBlockC1.step_event_count).counter_y =
       (line_run exampleBlockC1 initState 0).counter_y ∧
     (line_run exampleBlockC1 initState exampleBlockC1.step_event_count).counter_z =
       (line_run exampleBlockC1 initState 0).counter_z ∧
     (line_run exampleBlockC1 initState 0).counter_x =
       -((exampleBlockC1.step_event_count >>> 1 : Nat) : Int) ∧
     (line_run exampleBlockC1 initState 0).counter_y =
       -((exampleBlockC1.step_event_count >>> 1 : Nat) : Int) ∧
     (line_run exampleBlockC1 initState 0).counter_z =
       -((exampleBlockC1.step_event_count >>> 1 : Nat) : Int)) :=
  ⟨⟨by decide, by decide, by decide, by decide, by decide⟩,
    c8_dda_periodicity exampleBlockC1 initState (by decide) (by decide) (by decide)
      (by decide) (by decide)⟩

/-- `adjust_speed_state` does not change the live rate itself. -/
theorem adjust_speed_state_adjusted_rate (b : Block) (r : Nat) (s : StepperState) :
    (adjust_speed_state b r s).adjusted_rate = s.adjusted_rate := rfl

/-- `acceleration_tick_update` does not change the live rate. -/
theorem acceleration_tick_update_adjusted_rate (s : StepperState) :
    (acceleration_tick_update s).adjusted_rate = s.adjusted_rate := by
  unfold acceleration_tick_update
  dsimp only
  split_ifs <;> rfl

/-- In the acceleration phase, a speed adjustment either performs the
increment-and-clamp (after which the rate is at most `nominal_rate`) or
leaves the rate unchanged (no tick fired). -/
theorem speed_adjustment_accel_cases (b : Block) (t : StepperState)
    (hlt : t.step_events_completed < b.accelerate_until) :
    (speed_adjustment b t).adjusted_rate ≤ b.nominal_rate ∨
    (speed_adjustment b t).adjusted_rate = t.adjusted_rate := by
  unfold speed_adjustment
  dsimp only
  by_cases hn : t.step_events_completed < b.step_event_count
  · rw [if_pos hn, if_pos hlt]
    by_cases hf : acceleration_tick_fires t = true
    · rw [if_pos hf]
      left
      rw [adjust_speed_state_adjusted_rate]
      dsimp only
      split_ifs <;> omega
    · rw [if_neg hf]
      right
      exact acceleration_tick_update_adjusted_rate t
  · rw [if_neg hn]
    right
    rfl

/-- In the deceleration phase, a speed adjustment either performs the
decrement-and-clamp (after which the rate is at least `final_rate`) or
leaves the rate unchanged (tick-accumulator reset at phase entry, no tick
fired, or block finished). -/
theorem speed_adjustment_decel_cases (b : Block) (t : StepperState)
    (hda : b.accelerate_until ≤ b.decelerate_after)
    (hge : b.decelerate_after ≤ t.step_events_completed) :
    b.final_rate ≤ (speed_adjustment b t).adjusted_rate ∨
    (speed_adjustment b t).adjusted_rate = t.adjusted_rate := by
  unfold speed_adjustment
  dsimp only
  by_cases hn : t.step_events_completed < b.step_event_count
  · rw [if_pos hn]
    have hau : ¬ t.step_events_completed < b.accelerate_until := by omega
    rw [if_neg hau]
    by_cases heq : t.step_events_completed = b.decelerate_after
    · rw [if_pos heq]
      right
      rfl
    · rw [if_neg heq, if_pos hge]
      by_cases hf : acceleration_tick_fires t = true
      · rw [if_pos hf]
        left
        rw [adjust_speed_state_adjusted_rate]
        dsimp only
        split_ifs <;> omega
      · rw [if_neg hf]
        right
        exact acceleration_tick_update_adjusted_rate t
  · rw [if_neg hn]
    right
    rfl

/-- C2 counterexample: the claim asserts that with `rate_delta` > 0,
`initial_rate` at most `nominal_rate` and `final_rate` at most
`nominal_rate`, the live rate never falls below `final_rate` while in the
deceleration phase.  For a block whose deceleration phase starts at event 0
with the rate seeded below `final_rate` and a step rate so fast that no
acceleration tick fires on the first event, the state after one completed
dispatch invocation is in the deceleration phase with
`adjusted_rate < final_rate`. -/
theorem c2_counterexample :
    0 < decelSeedBlock.rate_delta ∧
    decelSeedBlock.initial_rate ≤ decelSeedBlock.nominal_rate ∧
    decelSeedBlock.final_rate ≤ decelSeedBlock.nominal_rate ∧
    decelSeedBlock.accelerate_until ≤ decelSeedBlock.decelerate_after ∧
    decelSeedBlock.decelerate_after ≤
      (line_run decelSeedBlock initState 1).step_events_completed ∧
    (line_run decelSeedBlock initState 1).step_events_completed <
      decelSeedBlock.step_event_count ∧
    (line_run decelSeedBlock initState 1).adjusted_rate < decelSeedBlock.final_rate := by
  refine ⟨by decide, by decide, by decide, by decide, by decide, by decide, by decide⟩

/-- C2 amended: with `initial_rate` at most `nominal_rate` and the block
invariant `accelerate_until` at most `decelerate_after`, the live rate never
exceeds `nominal_rate` while in the acceleration phase; and during the
deceleration phase it never falls below the minimum of its value on
entering that phase and `final_rate` — every deceleration adjustment clamps
at `final_rate`, but a rate that entered the phase below `final_rate` may
stay below it until a tick fires (which the counterexample exhibits). -/
theorem c2_rate_bounds_amended (b : Block) (s : StepperState)
    (h1 : b.initial_rate ≤ b.nominal_rate)
    (h2 : b.accelerate_until ≤ b.decelerate_after)
    (h3 : 0 < b.rate_delta) :
    (∀ k, k < b.accelerate_until → (line_run b s k).adjusted_rate ≤ b.nominal_rate) ∧
    (∀ k, b.decelerate_after ≤ k →
      min ((line_run b s b.decelerate_after).adjusted_rate) b.final_rate ≤
        (line_run b s k).adjusted_rate) := by
  constructor
  · intro k
    induction k with
    | zero =>
      intro hk
      rw [show (line_run b s 0).adjusted_rate = b.initial_rate from rfl]
      exact h1
    | succ k ih =>
      intro hk
      have hik := ih (by omega)
      have hsec : (line_trace b (line_run b s k)).step_events_completed = k + 1 := by
        rw [(line_trace_proj b (line_run b s k)).2.2.2.2.2.2.1, (line_run_proj b s k).2.2.2]
      have hadj : (line_trace b (line_run b s k)).adjusted_rate =
          (line_run b s k).adjusted_rate :=
        (line_trace_proj b (line_run b s k)).2.2.2.2.2.2.2
      have hrun : line_run b s (k + 1) =
          speed_adjustment b (line_trace b (line_run b s k)) := rfl
      rcases speed_adjustment_accel_cases b (line_trace b (line_run b s k))
          (by rw [hsec]; exact hk) with hle | heq
      · rw [hrun]
        exact hle
      · rw [hrun, heq, hadj]
        exact hik
  · intro k
    induction k with
    | zero =>
      intro hk
      have hda0 : b.decelerate_after = 0 := by omega
      rw [hda0]
      exact min_le_left _ _
    | succ k ih =>
      intro hk
      rcases Nat.eq_or_lt_of_le hk with hda | hlt
      · rw [← hda]
        exact min_le_left _ _
      · have hik := ih (by omega)
        have hsec : (line_trace b (line_run b s k)).step_events_completed = k + 1 := by
          rw [(line_trace_proj b (line_run b s k)).2.2.2.2.2.2.1, (line_run_proj b s k).2.2.2]
        have hadj : (line_trace b (line_run b s k)).adjusted_rate =
            (line_run b s k).adjusted_rate :=
          (line_trace_proj b (line_run b s k)).2.2.2.2.2.2.2
        have hrun : line_run b s (k + 1) =
            speed_adjustment b (line_trace b (line_run b s k)) := rfl
        rcases speed_adjustment_decel_cases b (line_trace b (line_run b s k)) h2
            (by rw [hsec]; omega) with hge | heq
        · rw [hrun]
          exact le_trans (min_le_right _ _) hge
        · rw [hrun, heq, hadj]
          exact hik

/-- Closed witness for the amended C2 at a concrete trapezoid block:
acceleration-phase bound at event 2, deceleration-phase bound at event 7. -/
theorem c2_witness :
    (trapezoidBlock.initial_rate ≤ trapezoidBlock.nominal_rate ∧
     trapezoidBlock.accelerate_until ≤ trapezoidBlock.decelerate_after ∧
     0 < trapezoidBlock.rate_delta ∧
     2 < trapezoidBlock.accelerate_until ∧
     trapezoidBlock.decelerate_after ≤ 7) ∧
    (line_run trapezoidBlock initState 2).adjusted_rate ≤ trapezoidBlock.nominal_rate ∧
    min ((line_run trapezoidBlock initState trapezoidBlock.decelerate_after).adjusted_rate)
        trapezoidBlock.final_rate ≤ (line_run trapezoidBlock initState 7).adjusted_rate :=
  ⟨⟨by decide, by decide, by decide, by decide, by decide⟩,
   (c2_rate_bounds_amended trapezoidBlock initState (by decide) (by decide) (by decide)).1 2
     (by decide),
   (c2_rate_bounds_amended trapezoidBlock initState (by decide) (by decide) (by decide)).2 7
     (by decide)⟩

end Stepper
